import Mathlib

/-
Verification of the two CLI scripts of the yiddish-cleaner repository:
scripts/align.py (forced alignment via whisperx) and
scripts/whisper_transcribe.py (transcription via openai-whisper).

Each script is a straight-line main function: argument validation,
optional imports, model load, one library call, result flattening and
JSON emission.
We embed each main as a pure function from the parsed arguments and an
environment (filesystem contents, import success, cuda availability, and the
outcomes of the opaque library calls) to an outcome recording every payload
emitted (tagged with the stream it went to), the process exit code, and
which library entry points were reached.
-/

set_option autoImplicit false

/-- Output stream of a print call: stdout or stderr. -/
inductive OutChan where
  | stdout
  | stderr
  deriving DecidableEq, Repr

/-- A Python exception as observed by an except handler: its message
(str e) and its class name (type e .__name__). -/
structure PyExc where
  msg : String
  ty : String
  deriving DecidableEq, Repr

deriving instance DecidableEq for Except

/-- A word entry of the nested library result, a Python dict whose keys
may each be absent: word, start, end, score (align) / probability
(whisper). Absent keys are modelled as none. -/
structure LibWord where
  word : Option String
  start : Option ℚ
  end_ : Option ℚ
  score : Option ℚ
  probability : Option ℚ
  deriving DecidableEq, Repr

/-- A segment entry of the nested library result; the scripts only read its
(possibly absent) list of words. -/
structure LibSegment where
  words : Option (List LibWord)
  deriving DecidableEq, Repr

/-- The nested result dict returned by the wrapped library call
(model.transcribe or whisperx.align); every key may be absent. -/
structure LibResult where
  text : Option String
  language : Option String
  duration : Option ℚ
  segments : Option (List LibSegment)
  deriving DecidableEq, Repr

/-- Round-half-to-even to the nearest integer, the tie behaviour of
Python's builtin round. -/
def roundHalfEven (q : ℚ) : ℤ :=
  if q - ⌊q⌋ < 1/2 then ⌊q⌋
  else if 1/2 < q - ⌊q⌋ then ⌊q⌋ + 1
  else if ⌊q⌋ % 2 = 0 then ⌊q⌋ else ⌊q⌋ + 1

/-- Python round(x, 3): round to 3 decimal digits, ties to even. -/
def pyRound3 (q : ℚ) : ℚ := (roundHalfEven (q * 1000) : ℚ) / 1000

/-- q is representable with 3 decimal digits (a whole number of
thousandths). -/
def isMilli (q : ℚ) : Prop := (q * 1000).den = 1

instance (q : ℚ) : Decidable (isMilli q) := by
  unfold isMilli
  infer_instance

/- ----------------------------------------------------------------
   scripts/align.py
   ---------------------------------------------------------------- -/

/-- Parsed command-line arguments of align.py (argparse defaults:
language "yi", model "large-v2", device "auto", compute-type "float16"). -/
structure AlignArgs where
  audio_path : String
  text_path : String
  language : String
  model : String
  device : String
  compute_type : String
  deriving DecidableEq, Repr

/-- Environment of one align.py invocation: filesystem facts, import
success, cuda availability, and the outcomes of the three opaque library
calls (load_align_model, load_audio giving a sample count, whisperx.align
giving the nested result). -/
structure AlignEnv where
  audioExists : Bool
  textExists : Bool
  textContent : String
  importOk : Bool
  importErrMsg : String
  cudaAvailable : Bool
  loadAlign : Except PyExc Unit
  loadAudio : Except PyExc ℕ
  alignCall : Except PyExc LibResult
  deriving DecidableEq, Repr

/-- A flattened word record emitted by align.py: word text, rounded start
and end, and a confidence key present only when the source had a score. -/
structure WordRec where
  word : String
  start : ℚ
  end_ : ℚ
  confidence : Option ℚ
  deriving DecidableEq, Repr

/-- The success payload of align.py (the dict printed to stdout; the
success key is the constant True and is left implicit). -/
structure AlignOutput where
  language : String
  duration : ℚ
  word_count : ℕ
  words : List WordRec
  deriving DecidableEq, Repr

/-- A payload printed by align.py: the success dict or an error dict with
an error message and an optional type key. -/
inductive AlignPayload where
  | ok (out : AlignOutput)
  | err (msg : String) (ty : Option String)
  deriving DecidableEq, Repr

/-- Whether a payload is the success dict. -/
def AlignPayload.isOk : AlignPayload → Bool
  | AlignPayload.ok _ => true
  | AlignPayload.err _ _ => false

/-- The single segment dict align.py constructs from the transcript. -/
structure PySeg where
  text : String
  start : ℚ
  end_ : ℚ
  deriving DecidableEq, Repr

/-- Observable outcome of one align.py invocation: the payloads printed
(with their stream), the exit code, whether load_align_model was reached,
the segments passed to whisperx.align (none when the call was not
reached), and the resolved (device, compute_type) pair (none when
execution stopped before device resolution). -/
structure AlignOutcome where
  emissions : List (OutChan × AlignPayload)
  exitCode : ℕ
  modelLoadAttempted : Bool
  alignSegments : Option (List PySeg)
  resolved : Option (String × String)
  deriving DecidableEq, Repr

/-- Python str.strip with no argument: remove leading and trailing
whitespace. Defined structurally over the character list. -/
def pyStrip (s : String) : String :=
  String.mk (((s.data.dropWhile Char.isWhitespace).reverse.dropWhile Char.isWhitespace).reverse)

/-- Device resolution of align.py: auto picks cuda when available, else
cpu; anything else is taken verbatim. -/
def resolveDevice (argDevice : String) (cudaAvailable : Bool) : String :=
  if argDevice = ("auto") then (if cudaAvailable then ("cuda") else ("cpu"))
  else argDevice

/-- Compute-type adjustment of align.py: float16 on cpu is downgraded to
int8; every other combination is kept. -/
def resolveComputeType (device computeType : String) : String :=
  if device = ("cpu") ∧ computeType = ("float16") then ("int8") else computeType

/-- The word record align.py builds from one library word dict: missing
word becomes the empty string, missing start and end become 0, start and
end are rounded to 3 decimals, and confidence is added exactly when the
score key is present (also rounded). -/
def alignWord (w : LibWord) : WordRec :=
  { word := w.word.getD ("")
    start := pyRound3 (w.start.getD 0)
    end_ := pyRound3 (w.end_.getD 0)
    confidence := w.score.map pyRound3 }

/-- The word-flattening loop of align.py: an append-accumulating loop over
result.get(segments, empty) and segment.get(words, empty). -/
def extractWordsAlign (r : LibResult) : List WordRec :=
  (r.segments.getD []).foldl
    (fun ws seg => (seg.words.getD []).foldl (fun ws2 w => ws2 ++ [alignWord w]) ws) []

/-- The main function of align.py, as a function of the parsed arguments
and the environment. Mirrors the source line by line: audio-path check,
text-path check, read and strip the transcript, empty check, import check,
device and compute-type resolution, then the try block around
load_align_model, load_audio, segment construction, whisperx.align, word
flattening and the success print; every except handler prints one JSON
error dict to stderr and exits 1. -/
def alignMain (args : AlignArgs) (env : AlignEnv) : AlignOutcome :=
  if env.audioExists = false then
    { emissions := [(OutChan.stderr, AlignPayload.err (("Audio file not found: ") ++ args.audio_path) none)]
      exitCode := 1
      modelLoadAttempted := false
      alignSegments := none
      resolved := none }
  else if env.textExists = false then
    { emissions := [(OutChan.stderr, AlignPayload.err (("Text file not found: ") ++ args.text_path) none)]
      exitCode := 1
      modelLoadAttempted := false
      alignSegments := none
      resolved := none }
  else
    let transcript := pyStrip env.textContent
    if transcript = ("") then
      { emissions := [(OutChan.stderr, AlignPayload.err ("Transcript is empty") none)]
        exitCode := 1
        modelLoadAttempted := false
        alignSegments := none
        resolved := none }
    else if env.importOk = false then
      { emissions := [(OutChan.stderr, AlignPayload.err (("Missing dependency: ") ++ env.importErrMsg ++ (". Install with: pip install whisperx torch")) none)]
        exitCode := 1
        modelLoadAttempted := false
        alignSegments := none
        resolved := none }
    else
      let device := resolveDevice args.device env.cudaAvailable
      let compute_type := resolveComputeType device args.compute_type
      match env.loadAlign with
      | Except.error e =>
        { emissions := [(OutChan.stderr, AlignPayload.err e.msg (some e.ty))]
          exitCode := 1
          modelLoadAttempted := true
          alignSegments := none
          resolved := some (device, compute_type) }
      | Except.ok _ =>
        match env.loadAudio with
        | Except.error e =>
          { emissions := [(OutChan.stderr, AlignPayload.err e.msg (some e.ty))]
            exitCode := 1
            modelLoadAttempted := true
            alignSegments := none
            resolved := some (device, compute_type) }
        | Except.ok audioLen =>
          let segments : List PySeg :=
            [{ text := transcript, start := 0, end_ := (audioLen : ℚ) / 16000 }]
          match env.alignCall with
          | Except.error e =>
            { emissions := [(OutChan.stderr, AlignPayload.err e.msg (some e.ty))]
              exitCode := 1
              modelLoadAttempted := true
              alignSegments := some segments
              resolved := some (device, compute_type) }
          | Except.ok result =>
            let words := extractWordsAlign result
            { emissions := [(OutChan.stdout, AlignPayload.ok
                { language := args.language
                  duration := pyRound3 ((audioLen : ℚ) / 16000)
                  word_count := words.length
                  words := words })]
              exitCode := 0
              modelLoadAttempted := true
              alignSegments := some segments
              resolved := some (device, compute_type) }

/- ----------------------------------------------------------------
   scripts/whisper_transcribe.py
   ---------------------------------------------------------------- -/

/-- Parsed command-line arguments of whisper_transcribe.py (argparse
defaults: model "base", language "yi", device "cpu", output "json"). -/
structure WhisperArgs where
  audio : String
  model : String
  language : String
  device : String
  output : String
  deriving DecidableEq, Repr

/-- Environment of one whisper_transcribe.py invocation: import success
and the outcomes of the two opaque library calls. -/
structure WhisperEnv where
  importOk : Bool
  loadModel : Except PyExc Unit
  transcribe : Except PyExc LibResult
  deriving DecidableEq, Repr

/-- A flattened word record emitted by whisper_transcribe.py: start and
end are copied without rounding (0 when missing) and the probability key
is always present, null (none) when the source lacked it. -/
structure TWordRec where
  word : String
  start : ℚ
  end_ : ℚ
  probability : Option ℚ
  deriving DecidableEq, Repr

/-- The success payload of whisper_transcribe.py. -/
structure WhisperOutput where
  text : String
  language : String
  duration : Option ℚ
  segments : List LibSegment
  words : List TWordRec
  deriving DecidableEq, Repr

/-- A payload printed by whisper_transcribe.py: the success dict or an
error dict with only a message. -/
inductive WhisperPayload where
  | ok (out : WhisperOutput)
  | err (msg : String)
  deriving DecidableEq, Repr

/-- Whether a payload is the success dict. -/
def WhisperPayload.isOk : WhisperPayload → Bool
  | WhisperPayload.ok _ => true
  | WhisperPayload.err _ => false

/-- Observable outcome of one whisper_transcribe.py invocation. -/
structure WhisperOutcome where
  emissions : List (OutChan × WhisperPayload)
  exitCode : ℕ
  deriving DecidableEq, Repr

/-- The word record whisper_transcribe.py builds from one library word
dict: missing word becomes the empty string, missing start and end become
0 with no rounding, and the probability value is copied as is (None when
absent). -/
def whisperWord (w : LibWord) : TWordRec :=
  { word := w.word.getD ("")
    start := w.start.getD 0
    end_ := w.end_.getD 0
    probability := w.probability }

/-- The word-flattening loop of whisper_transcribe.py: an
append-accumulating loop over result.get(segments, empty) and
segment.get(words, empty). -/
def extractWordsWhisper (r : LibResult) : List TWordRec :=
  (r.segments.getD []).foldl
    (fun ws seg => (seg.words.getD []).foldl (fun ws2 w => ws2 ++ [whisperWord w]) ws) []

/-- The main function of whisper_transcribe.py. Mirrors the source: the
dependency-import check, then the try block around load_model, transcribe, word
flattening and the success print. Every print of this script, errors
included, goes to stdout; error paths exit 1. -/
def whisperMain (args : WhisperArgs) (env : WhisperEnv) : WhisperOutcome :=
  if env.importOk = false then
    { emissions := [(OutChan.stdout, WhisperPayload.err ("openai-whisper not installed. Run: pip install openai-whisper"))]
      exitCode := 1 }
  else
    match env.loadModel with
    | Except.error e =>
      { emissions := [(OutChan.stdout, WhisperPayload.err e.msg)]
        exitCode := 1 }
    | Except.ok _ =>
      match env.transcribe with
      | Except.error e =>
        { emissions := [(OutChan.stdout, WhisperPayload.err e.msg)]
          exitCode := 1 }
      | Except.ok r =>
        let words := extractWordsWhisper r
        { emissions := [(OutChan.stdout, WhisperPayload.ok
            { text := r.text.getD ("")
              language := r.language.getD args.language
              duration := r.duration
              segments := r.segments.getD []
              words := words })]
          exitCode := 0 }

/- ----------------------------------------------------------------
   Concrete invocations used as witnesses and counterexamples
   ---------------------------------------------------------------- -/

/-- Arguments with the argparse defaults of align.py. -/
def defaultAlignArgs : AlignArgs :=
  { audio_path := ("a.wav")
    text_path := ("t.txt")
    language := ("yi")
    model := ("large-v2")
    device := ("auto")
    compute_type := ("float16") }

/-- Arguments with the argparse defaults of whisper_transcribe.py. -/
def defaultWhisperArgs : WhisperArgs :=
  { audio := ("a.wav")
    model := ("base")
    language := ("yi")
    device := ("cpu")
    output := ("json") }

/-- A library result with no keys at all. -/
def emptyLibResult : LibResult :=
  { text := none
    language := none
    duration := none
    segments := none }

/-- An invocation whose audio file is missing. -/
def c2Env : AlignEnv :=
  { audioExists := false
    textExists := true
    textContent := ("x")
    importOk := true
    importErrMsg := ("")
    cudaAvailable := false
    loadAlign := Except.ok ()
    loadAudio := Except.ok 0
    alignCall := Except.ok emptyLibResult }

/-- An invocation whose transcript file holds only whitespace. -/
def c3Env : AlignEnv :=
  { audioExists := true
    textExists := true
    textContent := ("  ")
    importOk := true
    importErrMsg := ("")
    cudaAvailable := false
    loadAlign := Except.ok ()
    loadAudio := Except.ok 0
    alignCall := Except.ok emptyLibResult }

/-- An invocation on a machine without cuda, so auto resolves to cpu. -/
def c4Env : AlignEnv :=
  { audioExists := true
    textExists := true
    textContent := ("hi")
    importOk := true
    importErrMsg := ("")
    cudaAvailable := false
    loadAlign := Except.ok ()
    loadAudio := Except.ok 0
    alignCall := Except.ok emptyLibResult }

/-- A library result whose single word starts at 1/2000 s, which is not a
whole number of thousandths. -/
def c5Result : LibResult :=
  { text := none
    language := none
    duration := none
    segments := some [{ words := some [{ word := some ("a"), start := some (1/2000), end_ := some (1/2000), score := none, probability := none }] }] }

/-- A library word with every key present. -/
def c5SrcWord : LibWord :=
  { word := some ("b")
    start := some 2
    end_ := some 3
    score := some 1
    probability := none }

/-- A library result holding just c5SrcWord. -/
def c5aResult : LibResult :=
  { text := none
    language := none
    duration := none
    segments := some [{ words := some [c5SrcWord] }] }

/-- A transcription invocation whose dependency import fails. -/
def c6wEnv : WhisperEnv :=
  { importOk := false
    loadModel := Except.ok ()
    transcribe := Except.ok emptyLibResult }

/-- An alignment invocation whose model load raises. -/
def c6aEnv : AlignEnv :=
  { audioExists := true
    textExists := true
    textContent := ("x")
    importOk := true
    importErrMsg := ("")
    cudaAvailable := false
    loadAlign := Except.error { msg := ("boom"), ty := ("RuntimeError") }
    loadAudio := Except.ok 0
    alignCall := Except.ok emptyLibResult }

/-- A library result whose single word has a start but no end key, so the
emitted record gets start 1 and end 0. -/
def c7Result : LibResult :=
  { text := none
    language := none
    duration := none
    segments := some [{ words := some [{ word := some ("b"), start := some 1, end_ := none, score := none, probability := none }] }] }

/-- A library result whose words all satisfy start at most end. -/
def c7GoodResult : LibResult :=
  { text := none
    language := none
    duration := none
    segments := some [{ words := some [{ word := some ("c"), start := some 1, end_ := some 2, score := none, probability := none }] }] }

/-- A library result for a fully successful alignment run. -/
def c8Result : LibResult :=
  { text := none
    language := none
    duration := none
    segments := some [{ words := some [{ word := some ("w"), start := some 1, end_ := some 2, score := some 1, probability := none }] }] }

/-- A fully successful alignment invocation with 16000 audio samples. -/
def c8Env : AlignEnv :=
  { audioExists := true
    textExists := true
    textContent := (" hello ")
    importOk := true
    importErrMsg := ("")
    cudaAvailable := false
    loadAlign := Except.ok ()
    loadAudio := Except.ok 16000
    alignCall := Except.ok c8Result }

/-- A library result for a successful alignment run, for the word-count
round trip. -/
def c9Result : LibResult :=
  { text := none
    language := none
    duration := none
    segments := some [{ words := some [{ word := some ("v"), start := some 1, end_ := some 1, score := none, probability := none }] }] }

/-- A fully successful alignment invocation. -/
def c9Env : AlignEnv :=
  { audioExists := true
    textExists := true
    textContent := ("v")
    importOk := true
    importErrMsg := ("")
    cudaAvailable := false
    loadAlign := Except.ok ()
    loadAudio := Except.ok 16000
    alignCall := Except.ok c9Result }

/-- The success payload align.py emits for c9Env, written with the very
terms alignMain builds. -/
def c9Out : AlignOutput :=
  { language := ("yi")
    duration := pyRound3 (((16000 : ℕ) : ℚ) / 16000)
    word_count := (extractWordsAlign c9Result).length
    words := extractWordsAlign c9Result }

/-- A library word with no keys at all. -/
def c10Word : LibWord :=
  { word := none
    start := none
    end_ := none
    score := none
    probability := none }

/-- A library result holding just c10Word. -/
def c10Result : LibResult :=
  { text := none
    language := none
    duration := none
    segments := some [{ words := some [c10Word] }] }

/- ----------------------------------------------------------------
   Helper lemmas
   ---------------------------------------------------------------- -/

/-- An append-accumulating foldl is the accumulator followed by the map. -/
theorem foldl_append_map {α β : Type} (f : α → β) (xs : List α) (acc : List β) :
    xs.foldl (fun a x => a ++ [f x]) acc = acc ++ xs.map f := by
  induction xs generalizing acc with
  | nil => simp
  | cons x xs ih => simp [ih]

/-- A foldl that appends a block per element is the accumulator followed
by the flattened blocks. -/
theorem foldl_append_flatMap {α γ : Type} (h : α → List γ) (xs : List α) (acc : List γ) :
    xs.foldl (fun a s => a ++ h s) acc = acc ++ xs.flatMap h := by
  induction xs generalizing acc with
  | nil => simp
  | cons x xs ih => simp [ih]

/-- A nested append-accumulating foldl is the accumulator followed by the
flattened map. -/
theorem foldl_foldl_append {α β γ : Type} (g : α → List β) (f : β → γ)
    (xs : List α) (acc : List γ) :
    xs.foldl (fun a s => (g s).foldl (fun a2 w => a2 ++ [f w]) a) acc
      = acc ++ xs.flatMap (fun s => (g s).map f) := by
  have hfun : (fun (a : List γ) (s : α) => (g s).foldl (fun a2 w => a2 ++ [f w]) a)
      = fun a s => a ++ (g s).map f := by
    funext a s
    exact foldl_append_map f (g s) a
  rw [hfun, foldl_append_flatMap]

/-- The align.py flattening loop equals the in-order concatenation of the
per-segment word lists, each mapped through alignWord. -/
theorem extractWordsAlign_eq (r : LibResult) :
    extractWordsAlign r
      = (r.segments.getD []).flatMap (fun s => (s.words.getD []).map alignWord) := by
  unfold extractWordsAlign
  rw [foldl_foldl_append]
  simp

/-- The whisper_transcribe.py flattening loop equals the in-order
concatenation of the per-segment word lists, each mapped through
whisperWord. -/
theorem extractWordsWhisper_eq (r : LibResult) :
    extractWordsWhisper r
      = (r.segments.getD []).flatMap (fun s => (s.words.getD []).map whisperWord) := by
  unfold extractWordsWhisper
  rw [foldl_foldl_append]
  simp

/-- pyRound3 always yields a whole number of thousandths. -/
theorem isMilli_pyRound3 (q : ℚ) : isMilli (pyRound3 q) := by
  unfold isMilli pyRound3
  rw [div_mul_cancel₀ _ (by norm_num : (1000 : ℚ) ≠ 0)]
  exact Rat.den_intCast _

/-- Rounding zero gives zero. -/
theorem pyRound3_zero : pyRound3 0 = 0 := by
  norm_num [pyRound3, roundHalfEven]

/-- On cpu, resolveComputeType downgrades float16 to int8 and never
yields float16. -/
theorem resolveComputeType_cpu_spec (ct : String) :
    (ct = ("float16") → resolveComputeType ("cpu") ct = ("int8")) ∧
    resolveComputeType ("cpu") ct ≠ ("float16") := by
  unfold resolveComputeType
  by_cases hct : ct = ("float16")
  · subst hct
    exact ⟨fun _ => by decide, by decide⟩
  · rw [if_neg]
    · exact ⟨fun h => absurd h hct, hct⟩
    · rintro ⟨h1, h2⟩
      exact hct h2

/-- Whenever alignMain records a resolved pair, it is the pair computed by
resolveDevice and resolveComputeType. -/
theorem alignMain_resolved (a : AlignArgs) (e : AlignEnv) (d c : String)
    (h : (alignMain a e).resolved = some (d, c)) :
    d = resolveDevice a.device e.cudaAvailable
      ∧ c = resolveComputeType d a.compute_type := by
  unfold alignMain at h
  dsimp only at h
  repeat' split at h
  all_goals simp_all
  all_goals (rw [← h.1]; exact h.2.symm)

/-- The flattened word list of c5Result, by computation. -/
theorem c5_extract :
    extractWordsWhisper c5Result
      = [{ word := ("a"), start := 1/2000, end_ := 1/2000, probability := none }] := rfl

/-- The flattened word list of c7Result, by computation. -/
theorem c7_extract :
    extractWordsWhisper c7Result
      = [{ word := ("b"), start := 1, end_ := 0, probability := none }] := rfl

/- ----------------------------------------------------------------
   Claims
   ---------------------------------------------------------------- -/

/-- Claim C1: each invocation of either tool emits exactly one payload,
success or error, and the exit code is 0 exactly on the success payload
and 1 exactly on an error payload. -/
theorem C1_exactly_one_payload (a : AlignArgs) (e : AlignEnv)
    (wa : WhisperArgs) (we : WhisperEnv) :
    (∃ ch p, (alignMain a e).emissions = [(ch, p)] ∧
      (alignMain a e).exitCode = (if p.isOk then 0 else 1)) ∧
    (∃ ch p, (whisperMain wa we).emissions = [(ch, p)] ∧
      (whisperMain wa we).exitCode = (if p.isOk then 0 else 1)) := by
  constructor
  · unfold alignMain
    dsimp only
    repeat' split
    all_goals exact ⟨_, _, rfl, rfl⟩
  · unfold whisperMain
    dsimp only
    repeat' split
    all_goals exact ⟨_, _, rfl, rfl⟩

/-- Claim C2: when the audio path is missing, align.py exits 1 with a
single error object on stderr, before any model load or alignment call. -/
theorem C2_missing_audio (a : AlignArgs) (e : AlignEnv)
    (h : e.audioExists = false) :
    (alignMain a e).exitCode = 1 ∧
    (∃ m, (alignMain a e).emissions = [(OutChan.stderr, AlignPayload.err m none)]) ∧
    (alignMain a e).modelLoadAttempted = false ∧
    (alignMain a e).alignSegments = none := by
  unfold alignMain
  rw [h]
  exact ⟨rfl, ⟨_, rfl⟩, rfl, rfl⟩

/-- Claim C2 witness: the property at a concrete invocation with a
missing audio file. -/
theorem C2_missing_audio_witness :
    c2Env.audioExists = false ∧
    ((alignMain defaultAlignArgs c2Env).exitCode = 1 ∧
      (∃ m, (alignMain defaultAlignArgs c2Env).emissions
        = [(OutChan.stderr, AlignPayload.err m none)]) ∧
      (alignMain defaultAlignArgs c2Env).modelLoadAttempted = false ∧
      (alignMain defaultAlignArgs c2Env).alignSegments = none) :=
  ⟨by decide, C2_missing_audio defaultAlignArgs c2Env (by decide)⟩

/-- Claim C3: when the transcript file exists but strips to the empty
string, align.py exits 1 with the empty-transcript error object on
stderr, and the alignment entry point is never invoked. -/
theorem C3_empty_transcript (a : AlignArgs) (e : AlignEnv)
    (h1 : e.audioExists = true) (h2 : e.textExists = true)
    (h3 : pyStrip e.textContent = ("")) :
    (alignMain a e).exitCode = 1 ∧
    (alignMain a e).emissions
      = [(OutChan.stderr, AlignPayload.err ("Transcript is empty") none)] ∧
    (alignMain a e).alignSegments = none := by
  unfold alignMain
  rw [h1, h2]
  dsimp only
  rw [h3]
  exact ⟨rfl, rfl, rfl⟩

/-- Claim C3 witness: the property at a concrete invocation whose
transcript file holds only whitespace. -/
theorem C3_empty_transcript_witness :
    c3Env.audioExists = true ∧ c3Env.textExists = true ∧
    pyStrip c3Env.textContent = ("") ∧
    ((alignMain defaultAlignArgs c3Env).exitCode = 1 ∧
      (alignMain defaultAlignArgs c3Env).emissions
        = [(OutChan.stderr, AlignPayload.err ("Transcript is empty") none)] ∧
      (alignMain defaultAlignArgs c3Env).alignSegments = none) :=
  ⟨by decide, by decide, by decide,
    C3_empty_transcript defaultAlignArgs c3Env (by decide) (by decide) (by decide)⟩

/-- Claim C4: whenever align.py resolves a device and compute type, a cpu
device (requested directly, or by auto resolution without cuda) together
with a requested float16 forces the resolved compute type to int8, and on
cpu the resolved compute type is never float16. -/
theorem C4_cpu_float16_downgrade (a : AlignArgs) (e : AlignEnv) (d c : String)
    (h : (alignMain a e).resolved = some (d, c)) :
    ((a.device = ("cpu") ∨ (a.device = ("auto") ∧ e.cudaAvailable = false)) → d = ("cpu")) ∧
    (d = ("cpu") → a.compute_type = ("float16") → c = ("int8")) ∧
    (d = ("cpu") → c ≠ ("float16")) := by
  obtain ⟨hd, hc⟩ := alignMain_resolved a e d c h
  refine ⟨?_, ?_, ?_⟩
  · rintro (hcpu | ⟨hauto, hcuda⟩)
    · rw [hd, hcpu]
      unfold resolveDevice
      rw [if_neg (by decide)]
    · rw [hd, hauto, hcuda]
      decide
  · intro hdc hct
    rw [hc, hdc]
    exact (resolveComputeType_cpu_spec a.compute_type).1 hct
  · intro hdc
    rw [hc, hdc]
    exact (resolveComputeType_cpu_spec a.compute_type).2

/-- Claim C4 witness: the property at a concrete invocation that resolves
auto to cpu and float16 to int8. -/
theorem C4_cpu_float16_downgrade_witness :
    (alignMain defaultAlignArgs c4Env).resolved = some (("cpu"), ("int8")) ∧
    (((defaultAlignArgs.device = ("cpu")
        ∨ (defaultAlignArgs.device = ("auto") ∧ c4Env.cudaAvailable = false))
        → ("cpu" : String) = ("cpu")) ∧
      (("cpu" : String) = ("cpu") → defaultAlignArgs.compute_type = ("float16")
        → ("int8" : String) = ("int8")) ∧
      (("cpu" : String) = ("cpu") → ("int8" : String) ≠ ("float16"))) :=
  ⟨by decide,
    C4_cpu_float16_downgrade defaultAlignArgs c4Env ("cpu") ("int8") (by decide)⟩

/-- Claim C5 counterexample: the transcription tool does not round timing
fields; on a library word starting at 1/2000 s the emitted record's start
is not a whole number of thousandths. -/
theorem C5_counterexample :
    ¬ (∀ w ∈ extractWordsWhisper c5Result, isMilli w.start ∧ isMilli w.end_) := by
  intro hall
  have h := hall { word := ("a"), start := 1/2000, end_ := 1/2000, probability := none }
    (by rw [c5_extract]; exact List.mem_singleton.mpr rfl)
  have h1 := h.1
  norm_num [isMilli] at h1

/-- Claim C5 amended: the alignment tool rounds every timing field (and
any confidence) to 3 decimals and includes confidence exactly when the
source has a score; the transcription tool copies start, end and
probability from the source unchanged (0 for a missing start or end). -/
theorem C5_amended_rounding (r : LibResult) (w : WordRec) (w0 : LibWord)
    (hw : w ∈ extractWordsAlign r) :
    (isMilli w.start ∧ isMilli w.end_ ∧ ∀ cf ∈ w.confidence, isMilli cf) ∧
    ((alignWord w0).confidence.isSome = w0.score.isSome) ∧
    ((whisperWord w0).start = w0.start.getD 0 ∧ (whisperWord w0).end_ = w0.end_.getD 0 ∧
      (whisperWord w0).probability = w0.probability) := by
  refine ⟨?_, ?_, rfl, rfl, rfl⟩
  · rw [extractWordsAlign_eq] at hw
    rw [List.mem_flatMap] at hw
    obtain ⟨s, hs, hw⟩ := hw
    rw [List.mem_map] at hw
    obtain ⟨v, hv, rfl⟩ := hw
    refine ⟨isMilli_pyRound3 _, isMilli_pyRound3 _, ?_⟩
    intro cf hcf
    unfold alignWord at hcf
    dsimp at hcf
    rw [Option.mem_map] at hcf
    obtain ⟨s0, hs0, rfl⟩ := hcf
    exact isMilli_pyRound3 _
  · obtain ⟨ww, ws, we, sc, pr⟩ := w0
    cases sc <;> simp [alignWord]

/-- Claim C5 amended witness: the property at a concrete aligned word. -/
theorem C5_amended_rounding_witness :
    (alignWord c5SrcWord ∈ extractWordsAlign c5aResult) ∧
    ((isMilli (alignWord c5SrcWord).start ∧ isMilli (alignWord c5SrcWord).end_ ∧
        ∀ cf ∈ (alignWord c5SrcWord).confidence, isMilli cf) ∧
      ((alignWord c5SrcWord).confidence.isSome = c5SrcWord.score.isSome) ∧
      ((whisperWord c5SrcWord).start = c5SrcWord.start.getD 0 ∧
        (whisperWord c5SrcWord).end_ = c5SrcWord.end_.getD 0 ∧
        (whisperWord c5SrcWord).probability = c5SrcWord.probability)) := by
  have hm : alignWord c5SrcWord ∈ extractWordsAlign c5aResult :=
    List.mem_singleton.mpr rfl
  exact ⟨hm, C5_amended_rounding c5aResult (alignWord c5SrcWord) c5SrcWord hm⟩

/-- Claim C6 counterexample: on a failing transcription invocation the
error object is emitted, but not on stderr (it goes to stdout). -/
theorem C6_counterexample :
    (whisperMain defaultWhisperArgs c6wEnv).exitCode = 1 ∧
    ¬ (∀ em ∈ (whisperMain defaultWhisperArgs c6wEnv).emissions,
        em.1 = OutChan.stderr) := by
  decide

/-- Claim C6 amended: every failing invocation reports its error exactly
once as a single error object with exit code 1 and no success payload
alongside; align.py writes it to stderr while whisper_transcribe.py
writes it to stdout. -/
theorem C6_amended_single_error (a : AlignArgs) (e : AlignEnv)
    (wa : WhisperArgs) (we : WhisperEnv) :
    ((alignMain a e).exitCode ≠ 0 →
      ((alignMain a e).exitCode = 1 ∧
        ∃ m t, (alignMain a e).emissions = [(OutChan.stderr, AlignPayload.err m t)])) ∧
    ((whisperMain wa we).exitCode ≠ 0 →
      ((whisperMain wa we).exitCode = 1 ∧
        ∃ m, (whisperMain wa we).emissions = [(OutChan.stdout, WhisperPayload.err m)])) := by
  constructor
  · unfold alignMain
    dsimp only
    repeat' split
    all_goals intro hne
    all_goals first
      | exact absurd rfl hne
      | exact ⟨rfl, _, _, rfl⟩
  · unfold whisperMain
    dsimp only
    repeat' split
    all_goals intro hne
    all_goals first
      | exact absurd rfl hne
      | exact ⟨rfl, _, rfl⟩

/-- Claim C6 amended witness: the property at a failing alignment
invocation (model load raises) and a failing transcription invocation
(import fails). -/
theorem C6_amended_single_error_witness :
    ((alignMain defaultAlignArgs c6aEnv).exitCode ≠ 0 ∧
      (whisperMain defaultWhisperArgs c6wEnv).exitCode ≠ 0) ∧
    (((alignMain defaultAlignArgs c6aEnv).exitCode = 1 ∧
        ∃ m t, (alignMain defaultAlignArgs c6aEnv).emissions
          = [(OutChan.stderr, AlignPayload.err m t)]) ∧
      ((whisperMain defaultWhisperArgs c6wEnv).exitCode = 1 ∧
        ∃ m, (whisperMain defaultWhisperArgs c6wEnv).emissions
          = [(OutChan.stdout, WhisperPayload.err m)])) := by
  have h := C6_amended_single_error defaultAlignArgs c6aEnv defaultWhisperArgs c6wEnv
  exact ⟨⟨by decide, by decide⟩, h.1 (by decide), h.2 (by decide)⟩

/-- Claim C7 counterexample: a library word with a start but no end key
yields an emitted record with start 1 and end 0, so start is not at most
end. -/
theorem C7_counterexample :
    ¬ (∀ w ∈ extractWordsWhisper c7Result, w.start ≤ w.end_) := by
  intro hall
  have h := hall { word := ("b"), start := 1, end_ := 0, probability := none }
    (by rw [c7_extract]; exact List.mem_singleton.mpr rfl)
  norm_num at h

/-- Claim C7 amended: the flat word list is the in-order concatenation of
the per-segment word lists, and when every source word satisfies start at
most end (missing fields read as 0), so does every emitted record. -/
theorem C7_amended_order (r : LibResult)
    (h : ∀ s ∈ r.segments.getD [], ∀ v ∈ s.words.getD [],
      v.start.getD 0 ≤ v.end_.getD 0) :
    extractWordsWhisper r
      = (r.segments.getD []).flatMap (fun s => (s.words.getD []).map whisperWord) ∧
    ∀ w ∈ extractWordsWhisper r, w.start ≤ w.end_ := by
  refine ⟨extractWordsWhisper_eq r, ?_⟩
  intro w hw
  rw [extractWordsWhisper_eq, List.mem_flatMap] at hw
  obtain ⟨s, hs, hw⟩ := hw
  rw [List.mem_map] at hw
  obtain ⟨v, hv, rfl⟩ := hw
  exact h s hs v hv

/-- Claim C7 amended witness: the property at a concrete library result
whose words are well ordered. -/
theorem C7_amended_order_witness :
    (∀ s ∈ c7GoodResult.segments.getD [], ∀ v ∈ s.words.getD [],
      v.start.getD 0 ≤ v.end_.getD 0) ∧
    (extractWordsWhisper c7GoodResult
      = (c7GoodResult.segments.getD []).flatMap
          (fun s => (s.words.getD []).map whisperWord) ∧
      ∀ w ∈ extractWordsWhisper c7GoodResult, w.start ≤ w.end_) :=
  ⟨by decide, C7_amended_order c7GoodResult (by decide)⟩

/-- Claim C8: every successful alignment invocation passes exactly one
segment to the alignment call, spanning the stripped transcript from 0 to
the sample count over 16000, and reports that same quantity rounded to 3
decimals as the duration. -/
theorem C8_single_segment (a : AlignArgs) (e : AlignEnv)
    (h : (alignMain a e).exitCode = 0) :
    ∃ n out,
      e.loadAudio = Except.ok n ∧
      (alignMain a e).alignSegments
        = some [{ text := pyStrip e.textContent, start := 0, end_ := (n : ℚ) / 16000 }] ∧
      (alignMain a e).emissions = [(OutChan.stdout, AlignPayload.ok out)] ∧
      out.duration = pyRound3 ((n : ℚ) / 16000) := by
  revert h
  unfold alignMain
  dsimp only
  repeat' split
  all_goals intro h
  all_goals first
    | (refine ⟨_, _, ?_, rfl, rfl, rfl⟩; assumption)
    | simp at h

/-- Claim C8 witness: the property at a concrete successful invocation. -/
theorem C8_single_segment_witness :
    (alignMain defaultAlignArgs c8Env).exitCode = 0 ∧
    (∃ n out,
      c8Env.loadAudio = Except.ok n ∧
      (alignMain defaultAlignArgs c8Env).alignSegments
        = some [{ text := pyStrip c8Env.textContent, start := 0, end_ := (n : ℚ) / 16000 }] ∧
      (alignMain defaultAlignArgs c8Env).emissions
        = [(OutChan.stdout, AlignPayload.ok out)] ∧
      out.duration = pyRound3 ((n : ℚ) / 16000)) :=
  ⟨by decide, C8_single_segment defaultAlignArgs c8Env (by decide)⟩

/-- Claim C9: in every success payload of align.py, word_count equals the
length of the words list. -/
theorem C9_word_count (a : AlignArgs) (e : AlignEnv) (ch : OutChan) (out : AlignOutput)
    (h : (alignMain a e).emissions = [(ch, AlignPayload.ok out)]) :
    out.word_count = out.words.length := by
  unfold alignMain at h
  dsimp only at h
  repeat' split at h
  all_goals simp_all
  rw [← h.2]

/-- Claim C9 witness: the property at a concrete successful invocation. -/
theorem C9_word_count_witness :
    (alignMain defaultAlignArgs c9Env).emissions
      = [(OutChan.stdout, AlignPayload.ok c9Out)] ∧
    c9Out.word_count = c9Out.words.length :=
  ⟨rfl, C9_word_count defaultAlignArgs c9Env OutChan.stdout c9Out rfl⟩

/-- Claim C10: both tools substitute the empty string for a missing word
and 0 for a missing start or end, and emit one record per source word
(never failing or skipping). -/
theorem C10_missing_field_defaults (w : LibWord) (r : LibResult) :
    (w.word = none → (alignWord w).word = ("") ∧ (whisperWord w).word = ("")) ∧
    (w.start = none → (alignWord w).start = 0 ∧ (whisperWord w).start = 0) ∧
    (w.end_ = none → (alignWord w).end_ = 0 ∧ (whisperWord w).end_ = 0) ∧
    (extractWordsAlign r).length
      = ((r.segments.getD []).map (fun s => (s.words.getD []).length)).sum ∧
    (extractWordsWhisper r).length
      = ((r.segments.getD []).map (fun s => (s.words.getD []).length)).sum := by
  refine ⟨?_, ?_, ?_, ?_, ?_⟩
  · intro h
    simp [alignWord, whisperWord, h]
  · intro h
    simp [alignWord, whisperWord, h, pyRound3_zero]
  · intro h
    simp [alignWord, whisperWord, h, pyRound3_zero]
  · rw [extractWordsAlign_eq, List.length_flatMap]
    simp [Function.comp_def]
  · rw [extractWordsWhisper_eq, List.length_flatMap]
    simp [Function.comp_def]

/-- Claim C10 witness: the property at a concrete library word lacking
every key. -/
theorem C10_missing_field_defaults_witness :
    (c10Word.word = none ∧ c10Word.start = none ∧ c10Word.end_ = none) ∧
    ((alignWord c10Word).word = ("") ∧ (whisperWord c10Word).word = ("")) ∧
    ((alignWord c10Word).start = 0 ∧ (whisperWord c10Word).start = 0) ∧
    ((alignWord c10Word).end_ = 0 ∧ (whisperWord c10Word).end_ = 0) ∧
    (extractWordsAlign c10Result).length
      = ((c10Result.segments.getD []).map (fun s => (s.words.getD []).length)).sum ∧
    (extractWordsWhisper c10Result).length
      = ((c10Result.segments.getD []).map (fun s => (s.words.getD []).length)).sum := by
  have h := C10_missing_field_defaults c10Word c10Result
  exact ⟨⟨rfl, rfl, rfl⟩, h.1 rfl, h.2.1 rfl, h.2.2.1 rfl, h.2.2.2⟩
